import Mathlib

/-!
Verification of the `backtrace-error` crate (`src/lib.rs`): a wrapper
`BacktraceError<E>` holding an inner error together with a captured stack
backtrace, two `From` conversions (plain error → wrapped, capturing a fresh
backtrace; wrapped → wrapped, moving the existing backtrace), a `Display`
implementation, `Error` accessors, the `NotEqual` / `NotBacktraceError`
auto-trait machinery, and the `ResultExt` unwrap/expect operations.

The embedding is shallow: each Rust item becomes an executable Lean
definition.  `Backtrace::capture` reads the process environment
(`RUST_BACKTRACE`), modelled by an explicit `CaptureEnv` argument holding the
enable flag and the frames the platform would record.  Writing to a
formatter / to stderr is modelled by accumulating a `String`; `panic!` is
modelled by the `RunResult.panicked` constructor.
-/

/-- The process environment seen by `std::backtrace::Backtrace::capture`:
whether capturing is enabled (`RUST_BACKTRACE` etc.) and the stack frames the
platform would record at this call site. -/
structure CaptureEnv where
  enabled : Bool
  frames : List String
deriving DecidableEq

/-- Model of `std::backtrace::Backtrace`: either a captured list of frames or
the disabled placeholder. -/
inductive Backtrace where
  | captured (frames : List String)
  | disabled
deriving DecidableEq

/-- `Backtrace::capture()`: captures the current stack when enabled by the
environment, otherwise yields the disabled placeholder.  It always returns a
value; it cannot fail. -/
def Backtrace.capture (env : CaptureEnv) : Backtrace :=
  if env.enabled then .captured env.frames else .disabled

/-- The `Display` text of a `std::backtrace::Backtrace`: the frames, or the
`disabled backtrace` placeholder when capture was disabled. -/
def Backtrace.render : Backtrace → String
  | .captured frames => String.intercalate "\n" frames
  | .disabled => "disabled backtrace"

/-- `struct BacktraceError<E> { pub inner: E, pub backtrace: Backtrace }` -/
structure BacktraceError (E : Type) where
  inner : E
  backtrace : Backtrace
deriving DecidableEq

/-- One `writeln!(f, ...)` step on an accumulating formatter buffer: append
the text and a newline. -/
def writelnBuf (buf s : String) : String :=
  buf ++ (s ++ "\n")

/-- `impl<E: Error> Display for BacktraceError<E>` (src/lib.rs:65-71): three
`writeln!` calls — the initial-error line, the `Error context:` header, and
the backtrace's own display text.  `dispE` is the inner type's `Display`. -/
def BacktraceError.display {E : Type} (dispE : E → String) (e : BacktraceError E) : String :=
  writelnBuf (writelnBuf (writelnBuf "" ("Initial error: " ++ dispE e.inner)) "Error context:")
    e.backtrace.render

/-- `Error::source` for `BacktraceError<E>` (src/lib.rs:74-76): always
`Some(&self.inner)`. -/
def BacktraceError.source {E : Type} (e : BacktraceError E) : Option E :=
  some e.inner

/-- `Error::backtrace` for `BacktraceError<E>` (src/lib.rs:78-80): always
`Some(&self.backtrace)`. -/
def BacktraceError.errorBacktrace {E : Type} (e : BacktraceError E) : Option Backtrace :=
  some e.backtrace

/-- `impl<T: From<U>, U> From<BacktraceError<U>> for BacktraceError<T>`
(src/lib.rs:137-144): converts the inner value with the target type's `From`
rule `f` and moves the source's backtrace over unchanged. -/
def fromBacktraceError {U T : Type} (f : U → T) (e : BacktraceError U) : BacktraceError T :=
  { inner := f e.inner, backtrace := e.backtrace }

/-- `impl<T: From<U>, U> From<U> for BacktraceError<T>` (src/lib.rs:155-162):
converts the plain error with the target type's `From` rule `f` and captures
a fresh backtrace at this point. -/
def fromPlain {U T : Type} (f : U → T) (env : CaptureEnv) (u : U) : BacktraceError T :=
  { inner := f u, backtrace := Backtrace.capture env }

/-- `IsBackTraceError::backtrace_error` for `BacktraceError<T>`
(src/lib.rs:98-103): returns `self` unchanged. -/
def backtrace_error {T : Type} (e : BacktraceError T) : BacktraceError T :=
  e

/-- The observable outcome of a `ResultExt` call: either control returns to
the caller with a value, or the process panics with a message. -/
inductive RunResult (T : Type) where
  | returned (v : T)
  | panicked (msg : String)
deriving DecidableEq

/-- `ResultExt::expect_or_backtrace` (src/lib.rs:174-184): on `Ok` return the
value with nothing written; on `Err` write the message, a blank line and the
wrapped error's display to stderr (each via `eprintln!`), then panic with the
same message.  Returns the outcome paired with the accumulated stderr text. -/
def expect_or_backtrace {T E : Type} (dispE : E → String)
    (r : Except (BacktraceError E) T) (msg : String) : RunResult T × String :=
  match r with
  | .ok v => (.returned v, "")
  | .error bterr =>
      (.panicked msg,
        writelnBuf (writelnBuf (writelnBuf "" msg) "") (BacktraceError.display dispE bterr))

/-- `ResultExt::unwrap_or_backtrace` (src/lib.rs:166-168): the trait's default
method, delegating to `expect_or_backtrace` with the fixed message. -/
def unwrap_or_backtrace {T E : Type} (dispE : E → String)
    (r : Except (BacktraceError E) T) : RunResult T × String :=
  expect_or_backtrace dispE r "ResultExt::unwrap_or_backtrace found Err"

/-!
Type-level model of the auto-trait machinery.  Rust types appearing in the
conversion contracts are modelled by `Ty`: opaque plain error types, the
`BacktraceError<_>` constructor, and the special-cased trait object
`dyn Error + Sync + Send + 'static`.
-/

/-- Shapes of Rust types relevant to the crate's trait machinery. -/
inductive Ty where
  | base (n : Nat)
  | bte (t : Ty)
  | dynErr
deriving DecidableEq

/-- Whether a single type implements the auto trait `NotEqual`
(src/lib.rs:148-152): plain types auto-derive it, `dyn Error + Sync + Send`
has the explicit impl, and `BacktraceError<t>` auto-derives it from its
fields (`t` and `Backtrace`; the negative impl of `NotEqual` is only on
`(T, T)` pairs, not on `BacktraceError`). -/
def Ty.autoNotEqual : Ty → Bool
  | .base _ => true
  | .dynErr => true
  | .bte t => t.autoNotEqual

/-- Whether the pair `(a, b)` implements `NotEqual`: the negative impl
`impl<T> !NotEqual for (T, T)` excludes equal pairs; otherwise the tuple
auto-derives from its components. -/
def Ty.notEqualPair (a b : Ty) : Bool :=
  if a = b then false else a.autoNotEqual && b.autoNotEqual

/-- Whether a single type implements the auto trait `NotBacktraceError`
(src/lib.rs:84-90): the negative impl excludes every `BacktraceError<T>`;
`dyn Error + Sync + Send` has the explicit impl; plain types auto-derive. -/
def Ty.notBacktraceError : Ty → Bool
  | .base _ => true
  | .dynErr => true
  | .bte _ => false

/-- The where-clause of the plain-error (capture) `From` impl, for a source
type `S` and target `BacktraceError<T>`: `T: From<S>` holds in the ambient
conversion environment and `(S, BacktraceError<T>): NotEqual`. -/
def captureApplies (FromRel : Ty → Ty → Prop) (S T : Ty) : Prop :=
  FromRel T S ∧ Ty.notEqualPair S (Ty.bte T) = true

/-- The where-clause of the wrapped-to-wrapped (propagation) `From` impl, for
a source type `S` and target `BacktraceError<T>`: the source is some
`BacktraceError<U>` with `T: From<U>` and `(T, U): NotEqual`. -/
def propagationApplies (FromRel : Ty → Ty → Prop) (S T : Ty) : Prop :=
  ∃ U, S = Ty.bte U ∧ FromRel T U ∧ Ty.notEqualPair T U = true

/-- A chain of zero or more wrapped-to-wrapped conversions starting from a
given wrapped error, each step applying `fromBacktraceError` with some inner
conversion rule. -/
inductive ConvChain : {α : Type} → {β : Type} → BacktraceError α → BacktraceError β → Prop where
  | refl {α : Type} (e : BacktraceError α) : ConvChain e e
  | step {α β γ : Type} (f : β → γ) {e : BacktraceError α} {e₂ : BacktraceError β} :
      ConvChain e e₂ → ConvChain e (fromBacktraceError f e₂)

/-- A conversion environment in which every standard `From` rule has a plain
(non-wrapped) error type as its source; used to instantiate the
mutual-exclusivity theorem for claim C8. -/
def plainOnlyRel (a b : Ty) : Prop :=
  a = Ty.base 1 ∧ b = Ty.base 0

/-! ## Helper lemmas -/

theorem strAppend_assoc : ∀ a b c : String, a ++ b ++ c = a ++ (b ++ c) := by
  intro ⟨a⟩ ⟨b⟩ ⟨c⟩
  show String.mk ((a ++ b) ++ c) = String.mk (a ++ (b ++ c))
  rw [List.append_assoc]

theorem strNil_append : ∀ s : String, "" ++ s = s := by
  intro ⟨s⟩
  show String.mk ([] ++ s) = String.mk s
  rw [List.nil_append]

theorem convChain_backtrace {α β : Type} {e : BacktraceError α} {e₂ : BacktraceError β}
    (h : ConvChain e e₂) : e₂.backtrace = e.backtrace := by
  induction h with
  | refl _ => rfl
  | step f _ ih => simpa [fromBacktraceError] using ih

/-! ## Claim theorems -/

/-- C1: the wrapped-to-wrapped `From` conversion yields inner `T::from` of the
source's inner and exactly the source's backtrace, moved and never
re-captured; consequently a value built by `fromPlain` keeps the one captured
snapshot across any chain of such conversions, even when capture is
enabled. -/
theorem wrapped_conversion_preserves_backtrace :
    (∀ (U T : Type) (f : U → T) (e : BacktraceError U),
      fromBacktraceError f e = ⟨f e.inner, e.backtrace⟩) ∧
    (∀ (U T β : Type) (g : U → T) (env : CaptureEnv) (u : U) (e₂ : BacktraceError β),
      ConvChain (fromPlain g env u) e₂ → e₂.backtrace = Backtrace.capture env) := by
  refine ⟨fun U T f e => rfl, fun U T β g env u e₂ h => ?_⟩
  simpa [fromPlain] using convChain_backtrace h

theorem wrapped_conversion_preserves_backtrace_witness :
    (fromBacktraceError (fun n => n + 1)
        (fromPlain (fun n => n) ⟨true, ["frame1", "frame2"]⟩ (2 : Nat))).backtrace =
      Backtrace.capture ⟨true, ["frame1", "frame2"]⟩ :=
  wrapped_conversion_preserves_backtrace.2 Nat Nat Nat (fun n => n)
    ⟨true, ["frame1", "frame2"]⟩ 2 _
    (ConvChain.step (fun n => n + 1) (ConvChain.refl _))

/-- C2: lifting a plain error yields inner `T::from(u)` and a backtrace
captured at this conversion; the construction is total and succeeds even when
capture is disabled by the environment (yielding the disabled placeholder). -/
theorem plain_conversion_captures :
    ∀ (U T : Type) (f : U → T) (env : CaptureEnv) (u : U),
      (fromPlain f env u).inner = f u ∧
      (fromPlain f env u).backtrace = Backtrace.capture env ∧
      ∀ frames : List String, (fromPlain f ⟨false, frames⟩ u).backtrace = Backtrace.disabled :=
  fun _ _ _ _ _ => ⟨rfl, rfl, fun _ => rfl⟩

/-- C3: on a failure result, `expect_or_backtrace` writes the caller's
message, a blank line, then the full display of the wrapped error to stderr
and panics with that same message; `unwrap_or_backtrace` does the same with
its fixed default message.  Neither returns a value. -/
theorem report_and_stop_on_failure :
    ∀ (T E : Type) (dispE : E → String) (b : BacktraceError E) (msg : String),
      @expect_or_backtrace T E dispE (.error b) msg =
        (.panicked msg, msg ++ "\n" ++ "\n" ++ BacktraceError.display dispE b ++ "\n") ∧
      @unwrap_or_backtrace T E dispE (.error b) =
        (.panicked "ResultExt::unwrap_or_backtrace found Err",
          "ResultExt::unwrap_or_backtrace found Err" ++ "\n" ++ "\n" ++
            BacktraceError.display dispE b ++ "\n") := by
  intro T E dispE b msg
  constructor <;>
    simp [expect_or_backtrace, unwrap_or_backtrace, writelnBuf, strAppend_assoc, strNil_append]

/-- C4: the `Display` rendering of a wrapped error is exactly
`"Initial error: " ++ s ++ "\n" ++ "Error context:" ++ "\n" ++ b ++ "\n"`
where `s` is the inner error's display text and `b` the backtrace's rendered
text. -/
theorem display_format_exact :
    ∀ (E : Type) (dispE : E → String) (e : BacktraceError E),
      BacktraceError.display dispE e =
        "Initial error: " ++ dispE e.inner ++ "\n" ++ "Error context:" ++ "\n" ++
          e.backtrace.render ++ "\n" := by
  intro E dispE e
  simp [BacktraceError.display, writelnBuf, strAppend_assoc, strNil_append]

/-- C5: for a chain plain → A → B → C of one lifting conversion and two
wrapped-to-wrapped conversions, the final inner value is the composed
conversion of the original plain error. -/
theorem chain_inner_composes :
    ∀ (U A B C : Type) (f₀ : U → A) (f₁ : A → B) (f₂ : B → C) (env : CaptureEnv) (u : U),
      (fromBacktraceError f₂ (fromBacktraceError f₁ (fromPlain f₀ env u))).inner =
        (f₂ ∘ f₁ ∘ f₀) u :=
  fun _ _ _ _ _ _ _ _ _ => rfl

/-- C6: on a success result, both `unwrap_or_backtrace` and
`expect_or_backtrace` return the success value and write nothing to
stderr. -/
theorem report_ops_on_success :
    ∀ (T E : Type) (dispE : E → String) (v : T) (msg : String),
      @expect_or_backtrace T E dispE (.ok v) msg = (.returned v, "") ∧
      @unwrap_or_backtrace T E dispE (.ok v) = (.returned v, "") :=
  fun _ _ _ _ _ => ⟨rfl, rfl⟩

/-- C7: the `Error` impl yields the inner error as `source()` and the stored
backtrace as `backtrace()`, both always `Some`, never `None`. -/
theorem error_impl_accessors :
    ∀ (E : Type) (e : BacktraceError E),
      e.source = some e.inner ∧ e.errorBacktrace = some e.backtrace ∧
      e.source ≠ none ∧ e.errorBacktrace ≠ none := by
  intro E e
  refine ⟨rfl, rfl, ?_, ?_⟩ <;> simp [BacktraceError.source, BacktraceError.errorBacktrace]

/-- C8: the propagation impl's `(T, U): NotEqual` bound fails whenever
`T = U`, so no same-type wrapped-to-wrapped conversion is offered; and in any
conversion environment whose standard `From` rules have plain (non-wrapped)
source types, no source/target pair satisfies the where-clauses of both the
capture impl and the propagation impl. -/
theorem conversion_paths_exclusive :
    (∀ t : Ty, Ty.notEqualPair t t = false) ∧
    (∀ FromRel : Ty → Ty → Prop,
      (∀ a b, FromRel a b → ∀ u, b ≠ Ty.bte u) →
      ∀ S T, ¬(captureApplies FromRel S T ∧ propagationApplies FromRel S T)) := by
  constructor
  · intro t
    simp [Ty.notEqualPair]
  · rintro FromRel hFrom S T ⟨⟨hcap, _⟩, U, hS, _, _⟩
    subst hS
    exact hFrom _ _ hcap U rfl

theorem conversion_paths_exclusive_witness :
    ¬(captureApplies plainOnlyRel (Ty.base 0) (Ty.base 1) ∧
      propagationApplies plainOnlyRel (Ty.base 0) (Ty.base 1)) :=
  conversion_paths_exclusive.2 plainOnlyRel
    (by rintro a b ⟨h1, h2⟩ u; subst h2; simp)
    (Ty.base 0) (Ty.base 1)

/-- C9: `unwrap_or_backtrace` coincides with `expect_or_backtrace` called
with the exact message `"ResultExt::unwrap_or_backtrace found Err"`, on every
result value. -/
theorem unwrap_is_expect_with_default_msg :
    ∀ (T E : Type) (dispE : E → String) (r : Except (BacktraceError E) T),
      unwrap_or_backtrace dispE r =
        expect_or_backtrace dispE r "ResultExt::unwrap_or_backtrace found Err" :=
  fun _ _ _ _ => rfl

/-- C10: `IsBackTraceError::backtrace_error` on a wrapped error is the
identity, returning the very same value; and the `NotBacktraceError` bound
gating the impl holds exactly for types that are not themselves
`BacktraceError<_>`. -/
theorem backtrace_error_is_identity :
    (∀ (T : Type) (e : BacktraceError T),
      backtrace_error e = e ∧ (backtrace_error e).inner = e.inner ∧
        (backtrace_error e).backtrace = e.backtrace) ∧
    (∀ t : Ty, t.notBacktraceError = true ↔ ∀ u, t ≠ Ty.bte u) := by
  refine ⟨fun T e => ⟨rfl, rfl, rfl⟩, fun t => ?_⟩
  cases t with
  | base n => simp [Ty.notBacktraceError]
  | dynErr => simp [Ty.notBacktraceError]
  | bte a =>
      simp only [Ty.notBacktraceError, Bool.false_eq_true, false_iff, not_forall]
      exact ⟨a, by simp⟩
